import Mathlib

/-! Verification development for the sale-commit workflow and the surrounding
storage operations of a pharmacy point-of-sale backend (an Express application:
`server/routes.ts` route handlers over the `server/storage.ts` persistence
layer, with the table and insert-schema declarations of `shared/schema.ts`).

Modelling conventions:
* The relational store is a `DB` record of in-memory tables (lists of rows)
  plus the `serial` id counters; each `DatabaseStorage` method becomes a pure
  function on `DB`.
* Scalar JSON request values are `JVal`; an absent field is `Option.none`.
  Monetary `decimal` columns are treated as rational numbers (the spec's
  scenarios use plain numeric amounts), `timestamp` columns as integer epoch
  values, and `integer` columns as integers.
* Zod validation of the generated insert schemas (`drizzle-zod` is an external
  library) is modelled from the spec: a required column's field must be present
  with the column's scalar type, a nullable column's field may be absent or
  null, a column with a database default may be absent.  A failed `parse`
  throws, which the route handler's `catch` turns into a 500 response; control
  flow around the throw follows the handler code literally.
* The `createdAt` / `updatedAt` / date bookkeeping columns are never read by
  the code under verification and are omitted from the row records.
-/

namespace Dawa

/-- Scalar JSON values appearing in a request body.  `jnull` is JSON null;
an absent field is represented as `Option.none` at its use site. -/
inductive JVal where
  | jnull : JVal
  | jbool : Bool → JVal
  | jnum : ℚ → JVal
  | jstr : String → JVal
  deriving DecidableEq

/-- JavaScript truthiness of a possibly-absent scalar value, as used by the
handler's `amountReceived || totalAmount` and `amountReceived ? … : …`. -/
def jsTruthy : Option JVal → Bool
  | none => false
  | some JVal.jnull => false
  | some (JVal.jbool b) => b
  | some (JVal.jnum q) => if q = 0 then false else true
  | some (JVal.jstr s) => if s = "" then false else true

/-- JavaScript numeric subtraction on the scalar fragment used by the sale
response (`amountReceived - totalAmount`); operands outside the numeric
fragment are outside the modelled behaviour and map to `none`. -/
def jsSub : Option JVal → Option JVal → Option JVal
  | some (JVal.jnum a), some (JVal.jnum b) => some (JVal.jnum (a - b))
  | _, _ => none

/-- Field of a required `integer` column: a JSON number with denominator 1. -/
def parseIntField : Option JVal → Option Int
  | some (JVal.jnum q) => if q.den = 1 then some q.num else none
  | _ => none

/-- Field of a required `decimal` column, treated as a rational amount. -/
def parseNumField : Option JVal → Option ℚ
  | some (JVal.jnum q) => some q
  | _ => none

/-- Field of a required `varchar`/`text` column. -/
def parseStrField : Option JVal → Option String
  | some (JVal.jstr s) => some s
  | _ => none

/-- Field of a nullable `varchar` column: may be absent or null. -/
def parseOptStrField : Option JVal → Option (Option String)
  | none => some none
  | some JVal.jnull => some none
  | some (JVal.jstr s) => some (some s)
  | _ => none

/-- Field of a `varchar` column with a database default: an absent field takes
the default. -/
def parseDefStrField : Option JVal → String → Option String
  | none, d => some d
  | some (JVal.jstr s), _ => some s
  | _, _ => none

/-! ## Row records (from the `pgTable` declarations of `shared/schema.ts`) -/

/-- A row of `users`. -/
structure User where
  id : Int
  username : String
  email : Option String
  password : String
  role : String
  firstName : Option String
  lastName : Option String
  profileImageUrl : Option String
  isActive : Bool
  deriving DecidableEq

/-- Insertable fields of `users` (`insertUserSchema`). -/
structure InsertUser where
  username : String
  email : Option String
  password : String
  role : String
  firstName : Option String
  lastName : Option String
  profileImageUrl : Option String
  isActive : Bool
  deriving DecidableEq

/-- A row of `categories`. -/
structure Category where
  id : Int
  name : String
  description : Option String
  deriving DecidableEq

/-- Insertable fields of `categories` (`insertCategorySchema`). -/
structure InsertCategory where
  name : String
  description : Option String
  deriving DecidableEq

/-- A row of `suppliers`. -/
structure Supplier where
  id : Int
  name : String
  contactPerson : Option String
  email : Option String
  phone : Option String
  address : Option String
  isActive : Bool
  deriving DecidableEq

/-- Insertable fields of `suppliers` (`insertSupplierSchema`). -/
structure InsertSupplier where
  name : String
  contactPerson : Option String
  email : Option String
  phone : Option String
  address : Option String
  isActive : Bool
  deriving DecidableEq

/-- A row of `customers`. -/
structure Customer where
  id : Int
  name : String
  email : Option String
  phone : Option String
  address : Option String
  dateOfBirth : Option Int
  deriving DecidableEq

/-- Insertable fields of `customers` (`insertCustomerSchema`). -/
structure InsertCustomer where
  name : String
  email : Option String
  phone : Option String
  address : Option String
  dateOfBirth : Option Int
  deriving DecidableEq

/-- A row of `drugs`. -/
structure Drug where
  id : Int
  name : String
  genericName : Option String
  brand : Option String
  categoryId : Option Int
  dosage : Option String
  form : Option String
  description : Option String
  barcode : Option String
  requiresPrescription : Bool
  isActive : Bool
  deriving DecidableEq

/-- Insertable fields of `drugs` (`insertDrugSchema`). -/
structure InsertDrug where
  name : String
  genericName : Option String
  brand : Option String
  categoryId : Option Int
  dosage : Option String
  form : Option String
  description : Option String
  barcode : Option String
  requiresPrescription : Bool
  isActive : Bool
  deriving DecidableEq

/-- A row of `drug_batches`. -/
structure DrugBatch where
  id : Int
  drugId : Int
  batchNumber : String
  expiryDate : Int
  quantity : Int
  costPrice : ℚ
  sellingPrice : ℚ
  supplierId : Option Int
  deriving DecidableEq

/-- Insertable fields of `drug_batches` (`insertDrugBatchSchema`). -/
structure InsertDrugBatch where
  drugId : Int
  batchNumber : String
  expiryDate : Int
  quantity : Int
  costPrice : ℚ
  sellingPrice : ℚ
  supplierId : Option Int
  deriving DecidableEq

/-- A row of `sales`. -/
structure Sale where
  id : Int
  receiptNumber : String
  customerId : Option Int
  customerName : Option String
  customerPhone : Option String
  userId : Int
  subtotal : ℚ
  taxAmount : ℚ
  discountAmount : ℚ
  totalAmount : ℚ
  paymentMethod : String
  status : String
  deriving DecidableEq

/-- Insertable fields of `sales` (`insertSaleSchema`), as the sale handler
supplies them (it always passes `discountAmount` and `status` explicitly). -/
structure InsertSale where
  receiptNumber : String
  customerId : Option Int
  customerName : Option String
  customerPhone : Option String
  userId : Int
  subtotal : ℚ
  taxAmount : ℚ
  discountAmount : ℚ
  totalAmount : ℚ
  paymentMethod : String
  status : String
  deriving DecidableEq

/-- A row of `sale_items`. -/
structure SaleItem where
  id : Int
  saleId : Int
  drugBatchId : Int
  quantity : Int
  unitPrice : ℚ
  totalPrice : ℚ
  deriving DecidableEq

/-- A row of `purchases`. -/
structure Purchase where
  id : Int
  purchaseNumber : String
  supplierId : Int
  userId : Int
  totalAmount : ℚ
  status : String
  deriving DecidableEq

/-- Insertable fields of `purchases` (`insertPurchaseSchema`). -/
structure InsertPurchase where
  purchaseNumber : String
  supplierId : Int
  userId : Int
  totalAmount : ℚ
  status : String
  deriving DecidableEq

/-- A row of `purchase_items`. -/
structure PurchaseItem where
  id : Int
  purchaseId : Int
  drugId : Int
  quantity : Int
  unitCost : ℚ
  totalCost : ℚ
  batchNumber : String
  expiryDate : Int
  deriving DecidableEq

/-- Insertable fields of `purchase_items` (`insertPurchaseItemSchema`). -/
structure InsertPurchaseItem where
  purchaseId : Int
  drugId : Int
  quantity : Int
  unitCost : ℚ
  totalCost : ℚ
  batchNumber : String
  expiryDate : Int
  deriving DecidableEq

/-- A row of `settings`. -/
structure Setting where
  id : Int
  key : String
  value : String
  deriving DecidableEq

/-- The relational store: one list of rows per table, plus the `serial`
id counters. -/
structure DB where
  users : List User
  categories : List Category
  suppliers : List Supplier
  customers : List Customer
  drugs : List Drug
  batches : List DrugBatch
  sales : List Sale
  saleItems : List SaleItem
  purchases : List Purchase
  purchaseItems : List PurchaseItem
  settings : List Setting
  nextUserId : Int
  nextCategoryId : Int
  nextSupplierId : Int
  nextCustomerId : Int
  nextDrugId : Int
  nextBatchId : Int
  nextSaleId : Int
  nextSaleItemId : Int
  nextPurchaseId : Int
  nextPurchaseItemId : Int
  nextSettingId : Int
  deriving DecidableEq

/-- The empty store, with all serial counters at 1. -/
def emptyDB : DB :=
  { users := [], categories := [], suppliers := [], customers := [],
    drugs := [], batches := [], sales := [], saleItems := [],
    purchases := [], purchaseItems := [], settings := [],
    nextUserId := 1, nextCategoryId := 1, nextSupplierId := 1,
    nextCustomerId := 1, nextDrugId := 1, nextBatchId := 1,
    nextSaleId := 1, nextSaleItemId := 1, nextPurchaseId := 1,
    nextPurchaseItemId := 1, nextSettingId := 1 }

/-! ## Storage layer (`DatabaseStorage` of `server/storage.ts`) -/

/-- `DatabaseStorage.getDrugBatch`: select the batch with the given id. -/
def getDrugBatch (db : DB) (id : Int) : Option DrugBatch :=
  db.batches.find? fun b => b.id == id

/-- Quantity of the batch with the given id, if it exists. -/
def lookupBatchQty (db : DB) (id : Int) : Option Int :=
  (getDrugBatch db id).map fun b => b.quantity

/-- A partial update of `drug_batches` (`Partial<InsertDrugBatch>`). -/
structure DrugBatchPatch where
  drugId : Option Int := none
  batchNumber : Option String := none
  expiryDate : Option Int := none
  quantity : Option Int := none
  costPrice : Option ℚ := none
  sellingPrice : Option ℚ := none
  supplierId : Option (Option Int) := none
  deriving DecidableEq

/-- Apply a partial update to a batch row (the `set` of an UPDATE). -/
def applyDrugBatchPatch (b : DrugBatch) (p : DrugBatchPatch) : DrugBatch :=
  { id := b.id,
    drugId := p.drugId.getD b.drugId,
    batchNumber := p.batchNumber.getD b.batchNumber,
    expiryDate := p.expiryDate.getD b.expiryDate,
    quantity := p.quantity.getD b.quantity,
    costPrice := p.costPrice.getD b.costPrice,
    sellingPrice := p.sellingPrice.getD b.sellingPrice,
    supplierId := p.supplierId.getD b.supplierId }

/-- `DatabaseStorage.updateDrugBatch`: set the given fields on the batch with
the given id. -/
def updateDrugBatch (db : DB) (id : Int) (p : DrugBatchPatch) : DB :=
  { db with batches := db.batches.map fun b =>
      if b.id == id then applyDrugBatchPatch b p else b }

/-- `DatabaseStorage.createDrugBatch`: insert a batch row with a fresh id. -/
def createDrugBatch (db : DB) (b : InsertDrugBatch) : DB × DrugBatch :=
  let row : DrugBatch :=
    { id := db.nextBatchId, drugId := b.drugId, batchNumber := b.batchNumber,
      expiryDate := b.expiryDate, quantity := b.quantity,
      costPrice := b.costPrice, sellingPrice := b.sellingPrice,
      supplierId := b.supplierId }
  ({ db with batches := db.batches ++ [row], nextBatchId := db.nextBatchId + 1 }, row)

/-- `DatabaseStorage.createSale`: insert a sale row with a fresh id. -/
def createSale (db : DB) (s : InsertSale) : DB × Sale :=
  let row : Sale :=
    { id := db.nextSaleId, receiptNumber := s.receiptNumber,
      customerId := s.customerId, customerName := s.customerName,
      customerPhone := s.customerPhone, userId := s.userId,
      subtotal := s.subtotal, taxAmount := s.taxAmount,
      discountAmount := s.discountAmount, totalAmount := s.totalAmount,
      paymentMethod := s.paymentMethod, status := s.status }
  ({ db with sales := db.sales ++ [row], nextSaleId := db.nextSaleId + 1 }, row)

/-- A validated cart line, the output of `insertSaleItemSchema.parse` minus the
server-assigned `saleId`. -/
structure ParsedSaleLine where
  drugBatchId : Int
  quantity : Int
  unitPrice : ℚ
  totalPrice : ℚ
  deriving DecidableEq

/-- `DatabaseStorage.createSaleItem`: insert a sale-item row with a fresh id. -/
def createSaleItem (db : DB) (saleId : Int) (p : ParsedSaleLine) : DB × SaleItem :=
  let row : SaleItem :=
    { id := db.nextSaleItemId, saleId := saleId, drugBatchId := p.drugBatchId,
      quantity := p.quantity, unitPrice := p.unitPrice, totalPrice := p.totalPrice }
  ({ db with
      saleItems := db.saleItems ++ [row],
      nextSaleItemId := db.nextSaleItemId + 1 }, row)

/-- `DatabaseStorage.createPurchase`: insert a purchase row with a fresh id. -/
def createPurchase (db : DB) (p : InsertPurchase) : DB × Purchase :=
  let row : Purchase :=
    { id := db.nextPurchaseId, purchaseNumber := p.purchaseNumber,
      supplierId := p.supplierId, userId := p.userId,
      totalAmount := p.totalAmount, status := p.status }
  ({ db with
      purchases := db.purchases ++ [row],
      nextPurchaseId := db.nextPurchaseId + 1 }, row)

/-- `DatabaseStorage.createPurchaseItem`: insert a purchase-item row with a
fresh id. -/
def createPurchaseItem (db : DB) (p : InsertPurchaseItem) : DB × PurchaseItem :=
  let row : PurchaseItem :=
    { id := db.nextPurchaseItemId, purchaseId := p.purchaseId, drugId := p.drugId,
      quantity := p.quantity, unitCost := p.unitCost, totalCost := p.totalCost,
      batchNumber := p.batchNumber, expiryDate := p.expiryDate }
  ({ db with
      purchaseItems := db.purchaseItems ++ [row],
      nextPurchaseItemId := db.nextPurchaseItemId + 1 }, row)

/-- `DatabaseStorage.createUser`: insert a user row with a fresh id. -/
def createUser (db : DB) (u : InsertUser) : DB × User :=
  let row : User :=
    { id := db.nextUserId, username := u.username, email := u.email,
      password := u.password, role := u.role, firstName := u.firstName,
      lastName := u.lastName, profileImageUrl := u.profileImageUrl,
      isActive := u.isActive }
  ({ db with users := db.users ++ [row], nextUserId := db.nextUserId + 1 }, row)

/-- `DatabaseStorage.updateUser` as exercised by the change-password route:
set the stored password hash of the user with the given id. -/
def updateUserPassword (db : DB) (id : Int) (hashed : String) : DB :=
  { db with users := db.users.map fun u =>
      if u.id == id then { u with password := hashed } else u }

/-- `DatabaseStorage.createCategory`. -/
def createCategory (db : DB) (c : InsertCategory) : DB × Category :=
  let row : Category := { id := db.nextCategoryId, name := c.name, description := c.description }
  ({ db with
      categories := db.categories ++ [row],
      nextCategoryId := db.nextCategoryId + 1 }, row)

/-- A partial update of `categories` (`insertCategorySchema.partial()`). -/
structure CategoryPatch where
  name : Option String := none
  description : Option (Option String) := none
  deriving DecidableEq

/-- `DatabaseStorage.updateCategory`. -/
def updateCategory (db : DB) (id : Int) (p : CategoryPatch) : DB :=
  { db with categories := db.categories.map fun c =>
      if c.id == id then
        { id := c.id, name := p.name.getD c.name,
          description := p.description.getD c.description }
      else c }

/-- `DatabaseStorage.deleteCategory`. -/
def deleteCategory (db : DB) (id : Int) : DB :=
  { db with categories := db.categories.filter fun c => !(c.id == id) }

/-- `DatabaseStorage.createSupplier`. -/
def createSupplier (db : DB) (s : InsertSupplier) : DB × Supplier :=
  let row : Supplier :=
    { id := db.nextSupplierId, name := s.name, contactPerson := s.contactPerson,
      email := s.email, phone := s.phone, address := s.address, isActive := s.isActive }
  ({ db with
      suppliers := db.suppliers ++ [row],
      nextSupplierId := db.nextSupplierId + 1 }, row)

/-- `DatabaseStorage.createCustomer`. -/
def createCustomer (db : DB) (c : InsertCustomer) : DB × Customer :=
  let row : Customer :=
    { id := db.nextCustomerId, name := c.name, email := c.email,
      phone := c.phone, address := c.address, dateOfBirth := c.dateOfBirth }
  ({ db with
      customers := db.customers ++ [row],
      nextCustomerId := db.nextCustomerId + 1 }, row)

/-- `DatabaseStorage.createDrug`. -/
def createDrug (db : DB) (d : InsertDrug) : DB × Drug :=
  let row : Drug :=
    { id := db.nextDrugId, name := d.name, genericName := d.genericName,
      brand := d.brand, categoryId := d.categoryId, dosage := d.dosage,
      form := d.form, description := d.description, barcode := d.barcode,
      requiresPrescription := d.requiresPrescription, isActive := d.isActive }
  ({ db with drugs := db.drugs ++ [row], nextDrugId := db.nextDrugId + 1 }, row)

/-- A partial update of `drugs` (`insertDrugSchema.partial()`). -/
structure DrugPatch where
  name : Option String := none
  genericName : Option (Option String) := none
  brand : Option (Option String) := none
  categoryId : Option (Option Int) := none
  dosage : Option (Option String) := none
  form : Option (Option String) := none
  description : Option (Option String) := none
  barcode : Option (Option String) := none
  requiresPrescription : Option Bool := none
  isActive : Option Bool := none
  deriving DecidableEq

/-- `DatabaseStorage.updateDrug`. -/
def updateDrug (db : DB) (id : Int) (p : DrugPatch) : DB :=
  { db with drugs := db.drugs.map fun d =>
      if d.id == id then
        { id := d.id, name := p.name.getD d.name,
          genericName := p.genericName.getD d.genericName,
          brand := p.brand.getD d.brand,
          categoryId := p.categoryId.getD d.categoryId,
          dosage := p.dosage.getD d.dosage, form := p.form.getD d.form,
          description := p.description.getD d.description,
          barcode := p.barcode.getD d.barcode,
          requiresPrescription := p.requiresPrescription.getD d.requiresPrescription,
          isActive := p.isActive.getD d.isActive }
      else d }

/-- `DatabaseStorage.deleteDrug`. -/
def deleteDrug (db : DB) (id : Int) : DB :=
  { db with drugs := db.drugs.filter fun d => !(d.id == id) }

/-- `DatabaseStorage.setSetting`: upsert by key (`onConflictDoUpdate`). -/
def setSetting (db : DB) (key value : String) : DB :=
  if db.settings.any fun s => s.key == key then
    { db with settings := db.settings.map fun s =>
        if s.key == key then { s with value := value } else s }
  else
    { db with
      settings := db.settings ++ [{ id := db.nextSettingId, key := key, value := value }],
      nextSettingId := db.nextSettingId + 1 }

/-- Whether `pat` occurs at the start of `s` (character lists). -/
def charsStartWith : List Char → List Char → Bool
  | [], _ => true
  | _ :: _, [] => false
  | a :: pat, b :: s => a == b && charsStartWith pat s

/-- Whether `pat` occurs contiguously anywhere inside `s` (character lists). -/
def charsContain (pat : List Char) : List Char → Bool
  | [] => charsStartWith pat []
  | b :: s => charsStartWith pat (b :: s) || charsContain pat s

/-- PostgreSQL `LIKE` pattern matching over character lists: `%` matches any
sequence of characters, `_` matches any single character, and the default
escape character backslash makes the following pattern character literal.
A pattern ending in a lone backslash raises an error in PostgreSQL and is
modelled as matching nothing; it is unreachable from the patterns this code
builds, whose last character is always `%`. -/
def likeMatch : List Char → List Char → Bool
  | [], s => s.isEmpty
  | p :: ps, s =>
    if p = '%' then s.tails.any fun t => likeMatch ps t
    else if p = '_' then
      match s with
      | [] => false
      | _ :: s' => likeMatch ps s'
    else if p = '\\' then
      match ps with
      | [] => false
      | pLit :: ps' =>
        match s with
        | [] => false
        | c :: s' => pLit == c && likeMatch ps' s'
    else
      match s with
      | [] => false
      | c :: s' => p == c && likeMatch ps s'

/-- The predicate of the drizzle call `like(column, pattern)` with the
pattern built by the template literal as `'%' + query + '%'`, matched under
PostgreSQL `LIKE` semantics.  `LIKE` is case-sensitive (`ilike` would be the
case-insensitive operator). -/
def sqlLikeContains (field : String) (query : String) : Bool :=
  likeMatch ('%' :: (query.toList ++ ['%'])) field.toList

/-- `LIKE '%query%'` on a nullable column: a NULL field never matches. -/
def sqlLikeContainsOpt : Option String → String → Bool
  | none, _ => false
  | some s, q => sqlLikeContains s q

/-- `DatabaseStorage.searchDrugs`: drugs whose name, genericName, brand or
barcode matches `LIKE '%query%'`. -/
def searchDrugs (db : DB) (query : String) : List Drug :=
  db.drugs.filter fun d =>
    sqlLikeContains d.name query ||
    sqlLikeContainsOpt d.genericName query ||
    sqlLikeContainsOpt d.brand query ||
    sqlLikeContainsOpt d.barcode query

/-- Modelled from the spec: `searchDrugsByText(query)` is described as a
"case-insensitive substring match across name/genericName/brand/barcode".
This definition follows the spec's words and exists only to compare with the
implementation's `searchDrugs`. -/
def caseInsensitiveContains (field : String) (query : String) : Bool :=
  charsContain (query.toList.map Char.toLower) (field.toList.map Char.toLower)

/-- Modelled from the spec: case-insensitive variant of the search over a
nullable column (a missing field has no substring). -/
def caseInsensitiveContainsOpt : Option String → String → Bool
  | none, _ => false
  | some s, q => caseInsensitiveContains s q

/-- Modelled from the spec: the drug search as the spec describes it,
case-insensitive across the four columns. -/
def searchDrugsSpec (db : DB) (query : String) : List Drug :=
  db.drugs.filter fun d =>
    caseInsensitiveContains d.name query ||
    caseInsensitiveContainsOpt d.genericName query ||
    caseInsensitiveContainsOpt d.brand query ||
    caseInsensitiveContainsOpt d.barcode query

/-! ## The sale-commit workflow (`POST /api/sales` of `server/routes.ts`) -/

/-- One raw cart line of the request body. -/
structure SaleItemRaw where
  drugBatchId : Option JVal
  quantity : Option JVal
  unitPrice : Option JVal
  totalPrice : Option JVal
  deriving DecidableEq

/-- The raw body of a sale-commit request.  `items` is `none` when the field
is absent or not an array (the handler's `for (const item of items)` then
throws); `discountAmount` may be supplied by a caller but is never read by the
handler. -/
structure SaleRequestBody where
  items : Option (List SaleItemRaw)
  subtotal : Option JVal
  taxAmount : Option JVal
  totalAmount : Option JVal
  paymentMethod : Option JVal
  amountReceived : Option JVal
  customerName : Option JVal
  customerPhone : Option JVal
  discountAmount : Option JVal
  deriving DecidableEq

/-- The receipt number `POS-${year}-${Date.now()}` generated by the handler. -/
def receiptNumberFor (year ms : Int) : String :=
  "POS-" ++ toString year ++ "-" ++ toString ms

/-- `insertSaleSchema.parse` on the object the handler builds: server-generated
receipt number, `discountAmount` fixed to 0, `status` fixed to `completed`,
`userId` from the authenticated caller, the remaining fields validated from
the body. -/
def parseSaleHeader (uid year ms : Int) (body : SaleRequestBody) : Option InsertSale := do
  let subtotal ← parseNumField body.subtotal
  let taxAmount ← parseNumField body.taxAmount
  let totalAmount ← parseNumField body.totalAmount
  let paymentMethod ← parseStrField body.paymentMethod
  let customerName ← parseOptStrField body.customerName
  let customerPhone ← parseOptStrField body.customerPhone
  some { receiptNumber := receiptNumberFor year ms, customerId := none,
         customerName := customerName, customerPhone := customerPhone,
         userId := uid, subtotal := subtotal, taxAmount := taxAmount,
         discountAmount := 0, totalAmount := totalAmount,
         paymentMethod := paymentMethod, status := "completed" }

/-- `insertSaleItemSchema.parse` on one cart line (the server-assigned
`saleId` is attached at insertion). -/
def parseSaleItem (r : SaleItemRaw) : Option ParsedSaleLine := do
  let drugBatchId ← parseIntField r.drugBatchId
  let quantity ← parseIntField r.quantity
  let unitPrice ← parseNumField r.unitPrice
  let totalPrice ← parseNumField r.totalPrice
  some { drugBatchId := drugBatchId, quantity := quantity,
         unitPrice := unitPrice, totalPrice := totalPrice }

/-- The loop body of the handler, over the remaining cart lines: parse the
line (a failure throws, keeping all writes performed so far), insert the sale
item, then read the referenced batch and, when it exists, write back
`quantity - item.quantity`; a missing batch skips the update. -/
def processSaleItems (saleId : Int) : DB → List SaleItemRaw → List SaleItem →
    DB × Option (List SaleItem)
  | db, [], acc => (db, some acc.reverse)
  | db, r :: rest, acc =>
    match parseSaleItem r with
    | none => (db, none)
    | some p =>
      let created := createSaleItem db saleId p
      match getDrugBatch created.1 p.drugBatchId with
      | some batch =>
          processSaleItems saleId
            (updateDrugBatch created.1 p.drugBatchId
              { quantity := some (batch.quantity - p.quantity) })
            rest (created.2 :: acc)
      | none => processSaleItems saleId created.1 rest (created.2 :: acc)

/-- The `amountReceived` echoed by the response:
`amountReceived || totalAmount`. -/
def respAmountReceived (body : SaleRequestBody) : Option JVal :=
  if jsTruthy body.amountReceived then body.amountReceived else body.totalAmount

/-- The `change` computed by the response:
`amountReceived ? amountReceived - totalAmount : 0`. -/
def respChange (body : SaleRequestBody) : Option JVal :=
  if jsTruthy body.amountReceived then jsSub body.amountReceived body.totalAmount
  else some (JVal.jnum 0)

/-- The response of the sale-commit endpoint: either `201` with the sale, its
items and the payment echo, or the catch-all error response. -/
inductive SaleResult where
  | created : Sale → List SaleItem → Option JVal → Option JVal → SaleResult
  | error : Nat → String → SaleResult
  deriving DecidableEq

/-- Whether a sale response is the `201 Created` success case. -/
def SaleResult.isCreated : SaleResult → Bool
  | SaleResult.created _ _ _ _ => true
  | SaleResult.error _ _ => false

/-- The `amountReceived` field of a successful sale response. -/
def SaleResult.amountReceivedOut : SaleResult → Option JVal
  | SaleResult.created _ _ ar _ => ar
  | SaleResult.error _ _ => none

/-- The `change` field of a successful sale response. -/
def SaleResult.changeOut : SaleResult → Option JVal
  | SaleResult.created _ _ _ ch => ch
  | SaleResult.error _ _ => none

/-- The `POST /api/sales` handler: validate and insert the sale header, then
walk the cart creating sale items and decrementing batches; any thrown
error (failed validation, missing `items` array) is caught and answered with
`500 Internal server error`, with all writes already performed left in place. -/
def commitSale (uid year ms : Int) (db : DB) (body : SaleRequestBody) : DB × SaleResult :=
  match parseSaleHeader uid year ms body with
  | none => (db, SaleResult.error 500 "Internal server error")
  | some saleData =>
    let createdSale := createSale db saleData
    match body.items with
    | none => (createdSale.1, SaleResult.error 500 "Internal server error")
    | some rawItems =>
      let processed := processSaleItems createdSale.2.id createdSale.1 rawItems []
      (processed.1,
       match processed.2 with
       | none => SaleResult.error 500 "Internal server error"
       | some items =>
           SaleResult.created createdSale.2 items (respAmountReceived body) (respChange body))

/-! ## The purchase workflow (`POST /api/purchases` of `server/routes.ts`) -/

/-- The raw `purchase` object of a purchase-commit request body. -/
structure PurchaseRaw where
  supplierId : Option JVal
  totalAmount : Option JVal
  status : Option JVal
  deriving DecidableEq

/-- One raw purchase line of the request body. -/
structure PurchaseItemRaw where
  drugId : Option JVal
  quantity : Option JVal
  unitCost : Option JVal
  totalCost : Option JVal
  batchNumber : Option JVal
  expiryDate : Option JVal
  deriving DecidableEq

/-- The raw body of a purchase-commit request (`{ purchase, items }`). -/
structure PurchaseRequestBody where
  purchase : Option PurchaseRaw
  items : Option (List PurchaseItemRaw)
  deriving DecidableEq

/-- `insertPurchaseSchema.parse` on the object the handler builds: the spread
purchase fields plus the server-generated `PUR-${year}-${Date.now()}` number
and the caller's id; `status` has the database default `pending`. -/
def parsePurchaseHeader (uid year ms : Int) (body : PurchaseRequestBody) :
    Option InsertPurchase := do
  let pr ← body.purchase
  let supplierId ← parseIntField pr.supplierId
  let totalAmount ← parseNumField pr.totalAmount
  let status ← parseDefStrField pr.status "pending"
  some { purchaseNumber := "PUR-" ++ toString year ++ "-" ++ toString ms,
         supplierId := supplierId, userId := uid,
         totalAmount := totalAmount, status := status }

/-- `insertPurchaseItemSchema.parse` on one purchase line plus the
server-assigned `purchaseId` (`expiryDate` modelled as an epoch integer). -/
def parsePurchaseItem (purchaseId : Int) (r : PurchaseItemRaw) :
    Option InsertPurchaseItem := do
  let drugId ← parseIntField r.drugId
  let quantity ← parseIntField r.quantity
  let unitCost ← parseNumField r.unitCost
  let totalCost ← parseNumField r.totalCost
  let batchNumber ← parseStrField r.batchNumber
  let expiryDate ← parseIntField r.expiryDate
  some { purchaseId := purchaseId, drugId := drugId, quantity := quantity,
         unitCost := unitCost, totalCost := totalCost,
         batchNumber := batchNumber, expiryDate := expiryDate }

/-- The purchase-item loop: parse and insert each line; a parse failure throws,
keeping all writes performed so far.  No drug-batch operation appears here. -/
def processPurchaseItems (purchaseId : Int) : DB → List PurchaseItemRaw → DB × Bool
  | db, [] => (db, true)
  | db, r :: rest =>
    match parsePurchaseItem purchaseId r with
    | none => (db, false)
    | some pItem => processPurchaseItems purchaseId (createPurchaseItem db pItem).1 rest

/-- The response of the purchase-commit endpoint. -/
inductive PurchaseResult where
  | created : Purchase → PurchaseResult
  | error : Nat → String → PurchaseResult
  deriving DecidableEq

/-- Whether a purchase response is the `201 Created` success case. -/
def PurchaseResult.isCreated : PurchaseResult → Bool
  | PurchaseResult.created _ => true
  | PurchaseResult.error _ _ => false

/-- The `POST /api/purchases` handler: validate and insert the purchase
header, then insert each purchase item; errors are caught and answered with
`500 Internal server error`. -/
def commitPurchase (uid year ms : Int) (db : DB) (body : PurchaseRequestBody) :
    DB × PurchaseResult :=
  match parsePurchaseHeader uid year ms body with
  | none => (db, PurchaseResult.error 500 "Internal server error")
  | some purchaseData =>
    let createdPurchase := createPurchase db purchaseData
    match body.items with
    | none => (createdPurchase.1, PurchaseResult.error 500 "Internal server error")
    | some rawItems =>
      let processed := processPurchaseItems createdPurchase.2.id createdPurchase.1 rawItems
      (processed.1,
       if processed.2 then PurchaseResult.created createdPurchase.2
       else PurchaseResult.error 500 "Internal server error")

/-! ## The exposed mutating operations (`registerRoutes` of `server/routes.ts`)

Each constructor is one route.  For routes other than the sale and purchase
commits the body validation outcome is carried as an `Option` payload (`none`
models a failed `parse`, which performs no write); `GET` routes and the login
route call only read-only storage methods and are grouped as `readOnly`. -/
inductive Op where
  | readOnly : Op
  | register : Option InsertUser → Op
  | changePassword : Int → String → Op
  | categoryCreate : Option InsertCategory → Op
  | categoryUpdate : Int → Option CategoryPatch → Op
  | categoryDelete : Int → Op
  | supplierCreate : Option InsertSupplier → Op
  | customerCreate : Option InsertCustomer → Op
  | drugCreate : Option InsertDrug → Op
  | drugUpdate : Int → Option DrugPatch → Op
  | drugDelete : Int → Op
  | drugBatchCreate : Option InsertDrugBatch → Op
  | saleCreate : Int → Int → Int → SaleRequestBody → Op
  | purchaseCreate : Int → Int → Int → PurchaseRequestBody → Op
  | settingPut : String → String → Op
  | seedTestData : Op

/-- Whether an operation is the sale-commit endpoint. -/
def Op.isSaleCreate : Op → Bool
  | Op.saleCreate _ _ _ _ => true
  | _ => false

/-- The `POST /api/init-test-data` handler: create the fixed seed categories,
suppliers, drugs and drug batches (each insert modelled as succeeding; a
failed insert is swallowed by the handler and performs no write either way). -/
def applySeedTestData (db : DB) : DB :=
  let db := (createCategory db { name := "Antibiotics", description := some "Antimicrobial drugs" }).1
  let db := (createCategory db { name := "Painkillers", description := some "Pain relief medications" }).1
  let db := (createCategory db { name := "Vitamins", description := some "Vitamin supplements" }).1
  let db := (createSupplier db {
    name := "MediCorp", contactPerson := some "John Smith",
    email := some "john@medicorp.com", phone := some "555-0101",
    address := none, isActive := true }).1
  let db := (createSupplier db {
    name := "PharmaSupply", contactPerson := some "Jane Doe",
    email := some "jane@pharmasupply.com", phone := some "555-0102",
    address := none, isActive := true }).1
  let db := (createDrug db {
    name := "Amoxicillin", genericName := some "Amoxicillin",
    brand := none, categoryId := some 1, dosage := some "500mg", form := some "Capsules",
    description := none, barcode := none, requiresPrescription := false, isActive := true }).1
  let db := (createDrug db {
    name := "Paracetamol", genericName := some "Acetaminophen",
    brand := none, categoryId := some 2, dosage := some "500mg", form := some "Tablets",
    description := none, barcode := none, requiresPrescription := false, isActive := true }).1
  let db := (createDrug db {
    name := "Vitamin C", genericName := some "Ascorbic Acid",
    brand := none, categoryId := some 3, dosage := some "1000mg", form := some "Tablets",
    description := none, barcode := none, requiresPrescription := false, isActive := true }).1
  let db := (createDrug db {
    name := "Ibuprofen", genericName := some "Ibuprofen",
    brand := none, categoryId := some 2, dosage := some "400mg", form := some "Tablets",
    description := none, barcode := none, requiresPrescription := false, isActive := true }).1
  let db := (createDrugBatch db {
    drugId := 1, batchNumber := "AMX001", expiryDate := 1767139200000,
    quantity := 100, costPrice := 17/2, sellingPrice := 12, supplierId := some 1 }).1
  let db := (createDrugBatch db {
    drugId := 2, batchNumber := "PAR001", expiryDate := 1764460800000,
    quantity := 150, costPrice := 13/4, sellingPrice := 11/2, supplierId := some 1 }).1
  let db := (createDrugBatch db {
    drugId := 3, batchNumber := "VIT001", expiryDate := 1769817600000,
    quantity := 75, costPrice := 15, sellingPrice := 45/2, supplierId := some 2 }).1
  let db := (createDrugBatch db {
    drugId := 4, batchNumber := "IBU001", expiryDate := 1761868800000,
    quantity := 200, costPrice := 19/4, sellingPrice := 8, supplierId := some 2 }).1
  db

/-- The store transition performed by each exposed route. -/
def applyOp (op : Op) (db : DB) : DB :=
  match op with
  | Op.readOnly => db
  | Op.register u =>
      match u with
      | none => db
      | some u => (createUser db u).1
  | Op.changePassword uid hashed => updateUserPassword db uid hashed
  | Op.categoryCreate c =>
      match c with
      | none => db
      | some c => (createCategory db c).1
  | Op.categoryUpdate id p =>
      match p with
      | none => db
      | some p => updateCategory db id p
  | Op.categoryDelete id => deleteCategory db id
  | Op.supplierCreate s =>
      match s with
      | none => db
      | some s => (createSupplier db s).1
  | Op.customerCreate c =>
      match c with
      | none => db
      | some c => (createCustomer db c).1
  | Op.drugCreate d =>
      match d with
      | none => db
      | some d => (createDrug db d).1
  | Op.drugUpdate id p =>
      match p with
      | none => db
      | some p => updateDrug db id p
  | Op.drugDelete id => deleteDrug db id
  | Op.drugBatchCreate b =>
      match b with
      | none => db
      | some b => (createDrugBatch db b).1
  | Op.saleCreate uid year ms body => (commitSale uid year ms db body).1
  | Op.purchaseCreate uid year ms body => (commitPurchase uid year ms db body).1
  | Op.settingPut key value => setSetting db key value
  | Op.seedTestData => applySeedTestData db


/-! ## Helper lemmas -/

/-- A successful `find?` on a list survives appending rows on the right. -/
theorem find?_append_some {α : Type} {p : α → Bool} {l₁ : List α} (l₂ : List α)
    {a : α} (h : l₁.find? p = some a) : (l₁ ++ l₂).find? p = some a := by
  induction l₁ with
  | nil => simp [List.find?] at h
  | cons x xs ih =>
    by_cases hx : p x
    · rw [List.find?_cons_of_pos _ hx] at h
      rw [List.cons_append, List.find?_cons_of_pos _ hx]
      exact h
    · rw [List.find?_cons_of_neg _ hx] at h
      rw [List.cons_append, List.find?_cons_of_neg _ hx]
      exact ih h

/-- Patching a batch row keeps its id. -/
theorem applyDrugBatchPatch_id (b : DrugBatch) (p : DrugBatchPatch) :
    (applyDrugBatchPatch b p).id = b.id := rfl

/-- Updating one batch id leaves lookups of other ids unchanged. -/
theorem getDrugBatch_update_ne (db : DB) (id idOther : Int) (p : DrugBatchPatch)
    (h : idOther ≠ id) :
    getDrugBatch (updateDrugBatch db id p) idOther = getDrugBatch db idOther := by
  show (db.batches.map _).find? _ = db.batches.find? _
  induction db.batches with
  | nil => rfl
  | cons b bs ih =>
    simp only [List.map_cons]
    by_cases hb : b.id = id
    · have hbeq : (b.id == id) = true := beq_iff_eq.mpr hb
      have hne : (b.id == idOther) = false := by
        refine beq_eq_false_iff_ne.mpr ?_
        rw [hb]; exact fun hcontra => h hcontra.symm
      have hne2 : ((applyDrugBatchPatch b p).id == idOther) = false := by
        rw [applyDrugBatchPatch_id]; exact hne
      rw [if_pos hbeq, List.find?_cons_of_neg _ (by simp [hne2]),
          List.find?_cons_of_neg _ (by simp [hne])]
      exact ih
    · have hbeq : (b.id == id) = false := beq_eq_false_iff_ne.mpr hb
      rw [if_neg (by simp [hbeq])]
      by_cases hbo : b.id = idOther
      · have : (b.id == idOther) = true := beq_iff_eq.mpr hbo
        rw [List.find?_cons_of_pos _ (by simp [this]),
            List.find?_cons_of_pos _ (by simp [this])]
      · have : (b.id == idOther) = false := beq_eq_false_iff_ne.mpr hbo
        rw [List.find?_cons_of_neg _ (by simp [this]),
            List.find?_cons_of_neg _ (by simp [this])]
        exact ih

/-- Updating a batch id rewrites exactly the looked-up row. -/
theorem getDrugBatch_update_self (db : DB) (id : Int) (p : DrugBatchPatch) :
    getDrugBatch (updateDrugBatch db id p) id =
      (getDrugBatch db id).map (fun b => applyDrugBatchPatch b p) := by
  show (db.batches.map _).find? _ = (db.batches.find? _).map _
  induction db.batches with
  | nil => rfl
  | cons b bs ih =>
    simp only [List.map_cons]
    by_cases hb : b.id = id
    · have hbeq : (b.id == id) = true := beq_iff_eq.mpr hb
      have hbeq2 : ((applyDrugBatchPatch b p).id == id) = true := by
        rw [applyDrugBatchPatch_id]; exact hbeq
      rw [if_pos hbeq, List.find?_cons_of_pos _ (by simp [hbeq2]),
          List.find?_cons_of_pos _ (by simp [hbeq])]
      rfl
    · have hbeq : (b.id == id) = false := beq_eq_false_iff_ne.mpr hb
      rw [if_neg (by simp [hbeq]), List.find?_cons_of_neg _ (by simp [hbeq]),
          List.find?_cons_of_neg _ (by simp [hbeq])]
      exact ih

/-- Lookups only read the `batches` table. -/
theorem lookupBatchQty_congr {dbA dbB : DB} (id : Int) (h : dbA.batches = dbB.batches) :
    lookupBatchQty dbA id = lookupBatchQty dbB id := by
  unfold lookupBatchQty getDrugBatch
  rw [h]

/-- A known batch quantity survives appending batch rows. -/
theorem lookupBatchQty_append {dbA dbB : DB} {id : Int} {q : Int} (l : List DrugBatch)
    (hb : dbB.batches = dbA.batches ++ l) (h : lookupBatchQty dbA id = some q) :
    lookupBatchQty dbB id = some q := by
  unfold lookupBatchQty getDrugBatch at h ⊢
  rw [hb]
  obtain ⟨b, hfind, hq⟩ : ∃ b, dbA.batches.find? (fun b => b.id == id) = some b ∧ b.quantity = q := by
    cases hf : dbA.batches.find? (fun b => b.id == id) with
    | none => rw [hf] at h; simp at h
    | some b => rw [hf] at h; simp at h; exact ⟨b, rfl, h⟩
  rw [find?_append_some l hfind]
  simp [hq]

/-- `createSaleItem` touches only the `saleItems` table and its counter. -/
theorem createSaleItem_batches (db : DB) (saleId : Int) (p : ParsedSaleLine) :
    (createSaleItem db saleId p).1.batches = db.batches := rfl

/-- `createSaleItem` leaves `sales` unchanged. -/
theorem createSaleItem_sales (db : DB) (saleId : Int) (p : ParsedSaleLine) :
    (createSaleItem db saleId p).1.sales = db.sales := rfl

/-- `updateDrugBatch` leaves `sales` unchanged. -/
theorem updateDrugBatch_sales (db : DB) (id : Int) (p : DrugBatchPatch) :
    (updateDrugBatch db id p).sales = db.sales := rfl

/-- `updateDrugBatch` leaves `saleItems` unchanged. -/
theorem updateDrugBatch_saleItems (db : DB) (id : Int) (p : DrugBatchPatch) :
    (updateDrugBatch db id p).saleItems = db.saleItems := rfl

/-- The item loop never writes to `sales`. -/
theorem processSaleItems_sales (saleId : Int) (raws : List SaleItemRaw) :
    ∀ (db : DB) (acc : List SaleItem),
      (processSaleItems saleId db raws acc).1.sales = db.sales := by
  induction raws with
  | nil => intro db acc; rfl
  | cons r rest ih =>
    intro db acc
    cases hp : parseSaleItem r with
    | none => simp [processSaleItems, hp]
    | some p =>
      cases hb : getDrugBatch (createSaleItem db saleId p).1 p.drugBatchId with
      | some batch =>
        simp only [processSaleItems, hp, hb]
        rw [ih]
        rfl
      | none =>
        simp only [processSaleItems, hp, hb]
        rw [ih]
        rfl

/-- The item loop completes without throwing exactly when every line parses. -/
theorem processSaleItems_some_iff (saleId : Int) (raws : List SaleItemRaw) :
    ∀ (db : DB) (acc : List SaleItem),
      ((processSaleItems saleId db raws acc).2.isSome = true ↔
        ∀ r ∈ raws, (parseSaleItem r).isSome = true) := by
  induction raws with
  | nil => intro db acc; simp [processSaleItems]
  | cons r rest ih =>
    intro db acc
    cases hp : parseSaleItem r with
    | none => simp [processSaleItems, hp]
    | some p =>
      cases hb : getDrugBatch (createSaleItem db saleId p).1 p.drugBatchId with
      | some batch =>
        simp only [processSaleItems, hp, hb]
        rw [ih]
        simp [hp]
      | none =>
        simp only [processSaleItems, hp, hb]
        rw [ih]
        simp [hp]

/-- When every line parses, the loop adds exactly one sale item per line. -/
theorem processSaleItems_length (saleId : Int) (raws : List SaleItemRaw) :
    ∀ (db : DB) (acc : List SaleItem), (∀ r ∈ raws, (parseSaleItem r).isSome = true) →
      (processSaleItems saleId db raws acc).1.saleItems.length =
        db.saleItems.length + raws.length := by
  induction raws with
  | nil => intro db acc _; rfl
  | cons r rest ih =>
    intro db acc hall
    have hr : (parseSaleItem r).isSome = true := hall r (by simp)
    have hrest : ∀ x ∈ rest, (parseSaleItem x).isSome = true := by
      intro x hx; exact hall x (by simp [hx])
    cases hp : parseSaleItem r with
    | none => rw [hp] at hr; simp at hr
    | some p =>
      cases hb : getDrugBatch (createSaleItem db saleId p).1 p.drugBatchId with
      | some batch =>
        simp only [processSaleItems, hp, hb]
        rw [ih _ _ hrest]
        show ((createSaleItem db saleId p).1.saleItems).length + rest.length = _
        simp [createSaleItem, List.length_append]
        omega
      | none =>
        simp only [processSaleItems, hp, hb]
        rw [ih _ _ hrest]
        show ((createSaleItem db saleId p).1.saleItems).length + rest.length = _
        simp [createSaleItem, List.length_append]
        omega

/-- The loop only appends to `saleItems`. -/
theorem processSaleItems_saleItems_mono (saleId : Int) (raws : List SaleItemRaw) :
    ∀ (db : DB) (acc : List SaleItem),
      ∃ l, (processSaleItems saleId db raws acc).1.saleItems = db.saleItems ++ l := by
  induction raws with
  | nil => intro db acc; exact ⟨[], by simp [processSaleItems]⟩
  | cons r rest ih =>
    intro db acc
    cases hp : parseSaleItem r with
    | none => exact ⟨[], by simp [processSaleItems, hp]⟩
    | some p =>
      cases hb : getDrugBatch (createSaleItem db saleId p).1 p.drugBatchId with
      | some batch =>
        obtain ⟨l, hl⟩ := ih (updateDrugBatch (createSaleItem db saleId p).1 p.drugBatchId
          { quantity := some (batch.quantity - p.quantity) }) ((createSaleItem db saleId p).2 :: acc)
        refine ⟨(createSaleItem db saleId p).2 :: l, ?_⟩
        simp only [processSaleItems, hp, hb]
        rw [hl]
        show ((createSaleItem db saleId p).1.saleItems) ++ l = _
        simp [createSaleItem]
      | none =>
        obtain ⟨l, hl⟩ := ih (createSaleItem db saleId p).1 ((createSaleItem db saleId p).2 :: acc)
        refine ⟨(createSaleItem db saleId p).2 :: l, ?_⟩
        simp only [processSaleItems, hp, hb]
        rw [hl]
        show ((createSaleItem db saleId p).1.saleItems) ++ l = _
        simp [createSaleItem]


/-- Counting over a cons whose head satisfies the predicate. -/
theorem countP_cons_true {α : Type} (p : α → Bool) (a : α) (l : List α) (h : p a = true) :
    (a :: l).countP p = l.countP p + 1 := by
  simp [List.countP_cons, h]

/-- Counting over a cons whose head fails the predicate. -/
theorem countP_cons_false {α : Type} (p : α → Bool) (a : α) (l : List α) (h : p a = false) :
    (a :: l).countP p = l.countP p := by
  simp [List.countP_cons, h]

/-- Cart lines whose parsed form never references a batch id leave that id's
quantity untouched, however far the loop gets. -/
theorem processSaleItems_qty_frame (saleId id : Int) (raws : List SaleItemRaw) :
    ∀ (db : DB) (acc : List SaleItem),
      (∀ p ∈ raws.filterMap parseSaleItem, ¬ p.drugBatchId = id) →
      lookupBatchQty (processSaleItems saleId db raws acc).1 id = lookupBatchQty db id := by
  induction raws with
  | nil => intro db acc _; rfl
  | cons r rest ih =>
    intro db acc hnone
    cases hp : parseSaleItem r with
    | none => simp [processSaleItems, hp]
    | some p =>
      have hpid : ¬ p.drugBatchId = id := by
        refine hnone p ?_
        simp [List.filterMap_cons, hp]
      have hrest : ∀ x ∈ rest.filterMap parseSaleItem, ¬ x.drugBatchId = id := by
        intro x hx
        refine hnone x ?_
        simp [List.filterMap_cons, hp, hx]
      cases hb : getDrugBatch (createSaleItem db saleId p).1 p.drugBatchId with
      | some batch =>
        simp only [processSaleItems, hp, hb]
        rw [ih _ _ hrest]
        unfold lookupBatchQty
        rw [getDrugBatch_update_ne _ _ _ _ (fun h => hpid h.symm)]
        rfl
      | none =>
        simp only [processSaleItems, hp, hb]
        rw [ih _ _ hrest]
        rfl

/-- A batch id referenced by exactly one parsed cart line ends the loop with
its starting quantity minus that line's quantity. -/
theorem processSaleItems_qty_once (saleId id : Int) (raws : List SaleItemRaw) :
    ∀ (db : DB) (acc : List SaleItem) (q0 : Int) (p : ParsedSaleLine),
      (∀ r ∈ raws, (parseSaleItem r).isSome = true) →
      p ∈ raws.filterMap parseSaleItem →
      p.drugBatchId = id →
      ((raws.filterMap parseSaleItem).countP fun x => x.drugBatchId == id) = 1 →
      lookupBatchQty db id = some q0 →
      lookupBatchQty (processSaleItems saleId db raws acc).1 id = some (q0 - p.quantity) := by
  induction raws with
  | nil => intro db acc q0 p _ hmem _ _ _; simp at hmem
  | cons r rest ih =>
    intro db acc q0 p hall hmem hpid hcount hq
    have hr : (parseSaleItem r).isSome = true := hall r (by simp)
    cases hp : parseSaleItem r with
    | none => rw [hp] at hr; simp at hr
    | some pr =>
      have hfm : (r :: rest).filterMap parseSaleItem = pr :: rest.filterMap parseSaleItem := by
        simp [List.filterMap_cons, hp]
      rw [hfm] at hmem hcount
      by_cases hpr : pr.drugBatchId = id
      · have hprb : (pr.drugBatchId == id) = true := beq_iff_eq.mpr hpr
        have hcount0 : ((rest.filterMap parseSaleItem).countP fun x => x.drugBatchId == id) = 0 := by
          rw [countP_cons_true (fun x => x.drugBatchId == id) pr (rest.filterMap parseSaleItem) hprb] at hcount
          omega
        have hrestnone : ∀ x ∈ rest.filterMap parseSaleItem, ¬ x.drugBatchId = id := by
          intro x hx
          have := List.countP_eq_zero.mp hcount0 x hx
          simpa [beq_iff_eq] using this
        have hpeq : p = pr := by
          rcases List.mem_cons.mp hmem with h | h
          · exact h
          · exact absurd hpid (hrestnone p h)
        subst hpeq
        obtain ⟨b, hfind, hbq⟩ : ∃ b, getDrugBatch db id = some b ∧ b.quantity = q0 := by
          unfold lookupBatchQty at hq
          cases hf : getDrugBatch db id with
          | none => rw [hf] at hq; simp at hq
          | some b =>
            rw [hf] at hq
            simp at hq
            exact ⟨b, rfl, hq⟩
        have hcb : getDrugBatch (createSaleItem db saleId p).1 p.drugBatchId = some b := by
          rw [hpid]
          exact hfind
        simp only [processSaleItems, hp, hcb]
        rw [processSaleItems_qty_frame saleId id rest _ _ hrestnone]
        unfold lookupBatchQty
        rw [hpid, getDrugBatch_update_self]
        have hcb2 : getDrugBatch (createSaleItem db saleId p).1 id = some b := hfind
        rw [hcb2]
        simp [applyDrugBatchPatch, hbq]
      · have hprb : (pr.drugBatchId == id) = false := beq_eq_false_iff_ne.mpr hpr
        have hcount1 : ((rest.filterMap parseSaleItem).countP fun x => x.drugBatchId == id) = 1 := by
          rw [countP_cons_false (fun x => x.drugBatchId == id) pr (rest.filterMap parseSaleItem) hprb] at hcount
          exact hcount
        have hmemRest : p ∈ rest.filterMap parseSaleItem := by
          rcases List.mem_cons.mp hmem with h | h
          · exact absurd (h ▸ hpid) hpr
          · exact h
        have hrest : ∀ x ∈ rest, (parseSaleItem x).isSome = true := by
          intro x hx; exact hall x (by simp [hx])
        cases hb : getDrugBatch (createSaleItem db saleId pr).1 pr.drugBatchId with
        | some batch =>
          simp only [processSaleItems, hp, hb]
          refine ih _ _ q0 p hrest hmemRest hpid hcount1 ?_
          unfold lookupBatchQty
          rw [getDrugBatch_update_ne _ _ _ _ (fun h => hpr h.symm)]
          exact hq
        | none =>
          simp only [processSaleItems, hp, hb]
          exact ih _ _ q0 p hrest hmemRest hpid hcount1 hq

/-- A line that fails to parse stops the loop: the throw is reported, but the
writes performed for the earlier lines remain. -/
theorem processSaleItems_stops (saleId : Int) (bad : SaleItemRaw) (rest : List SaleItemRaw)
    (hbad : parseSaleItem bad = none) :
    ∀ (pre : List SaleItemRaw) (db : DB) (acc : List SaleItem),
      (∀ r ∈ pre, (parseSaleItem r).isSome = true) →
      (processSaleItems saleId db (pre ++ bad :: rest) acc).2 = none
      ∧ (processSaleItems saleId db (pre ++ bad :: rest) acc).1.sales = db.sales
      ∧ (processSaleItems saleId db (pre ++ bad :: rest) acc).1.saleItems.length =
          db.saleItems.length + pre.length := by
  intro pre
  induction pre with
  | nil =>
    intro db acc _
    simp [processSaleItems, hbad]
  | cons r pre ih =>
    intro db acc hall
    have hr : (parseSaleItem r).isSome = true := hall r (by simp)
    have hpre : ∀ x ∈ pre, (parseSaleItem x).isSome = true := by
      intro x hx; exact hall x (by simp [hx])
    cases hp : parseSaleItem r with
    | none => rw [hp] at hr; simp at hr
    | some p =>
      cases hb : getDrugBatch (createSaleItem db saleId p).1 p.drugBatchId with
      | some batch =>
        rw [List.cons_append]
        simp only [processSaleItems, hp, hb]
        obtain ⟨h1, h2, h3⟩ := ih _ ((createSaleItem db saleId p).2 :: acc) hpre
        refine ⟨h1, ?_, ?_⟩
        · rw [h2]; rfl
        · rw [h3]
          show ((createSaleItem db saleId p).1.saleItems).length + pre.length = _
          simp only [createSaleItem, List.length_append, List.length_cons,
            List.length_nil, List.length_singleton]
          omega
      | none =>
        rw [List.cons_append]
        simp only [processSaleItems, hp, hb]
        obtain ⟨h1, h2, h3⟩ := ih _ ((createSaleItem db saleId p).2 :: acc) hpre
        refine ⟨h1, ?_, ?_⟩
        · rw [h2]; rfl
        · rw [h3]
          show ((createSaleItem db saleId p).1.saleItems).length + pre.length = _
          simp only [createSaleItem, List.length_append, List.length_cons,
            List.length_nil, List.length_singleton]
          omega

/-- Every cart line that parses contributes a sale-item row carrying its
batch reference and quantity (when the whole cart parses). -/
theorem processSaleItems_member (saleId : Int) (raws : List SaleItemRaw) :
    ∀ (db : DB) (acc : List SaleItem) (r : SaleItemRaw) (p : ParsedSaleLine),
      r ∈ raws → parseSaleItem r = some p →
      (∀ x ∈ raws, (parseSaleItem x).isSome = true) →
      ∃ si ∈ (processSaleItems saleId db raws acc).1.saleItems,
        si.saleId = saleId ∧ si.drugBatchId = p.drugBatchId ∧ si.quantity = p.quantity := by
  induction raws with
  | nil => intro db acc r p hmem _ _; simp at hmem
  | cons r0 rest ih =>
    intro db acc r p hmem hp hall
    have hr0 : (parseSaleItem r0).isSome = true := hall r0 (by simp)
    cases hp0 : parseSaleItem r0 with
    | none => rw [hp0] at hr0; simp at hr0
    | some p0 =>
      rcases List.mem_cons.mp hmem with heq | hmemRest
      · subst heq
        rw [hp] at hp0
        obtain rfl : p = p0 := Option.some.inj hp0
        cases hb : getDrugBatch (createSaleItem db saleId p).1 p.drugBatchId with
        | some batch =>
          simp only [processSaleItems, hp, hb]
          obtain ⟨l, hl⟩ := processSaleItems_saleItems_mono saleId rest
            (updateDrugBatch (createSaleItem db saleId p).1 p.drugBatchId
              { quantity := some (batch.quantity - p.quantity) })
            ((createSaleItem db saleId p).2 :: acc)
          refine ⟨(createSaleItem db saleId p).2, ?_, rfl, rfl, rfl⟩
          rw [hl]
          apply List.mem_append_left
          show (createSaleItem db saleId p).2 ∈ (createSaleItem db saleId p).1.saleItems
          simp [createSaleItem]
        | none =>
          simp only [processSaleItems, hp, hb]
          obtain ⟨l, hl⟩ := processSaleItems_saleItems_mono saleId rest
            (createSaleItem db saleId p).1 ((createSaleItem db saleId p).2 :: acc)
          refine ⟨(createSaleItem db saleId p).2, ?_, rfl, rfl, rfl⟩
          rw [hl]
          apply List.mem_append_left
          show (createSaleItem db saleId p).2 ∈ (createSaleItem db saleId p).1.saleItems
          simp [createSaleItem]
      · have hrest : ∀ x ∈ rest, (parseSaleItem x).isSome = true := by
          intro x hx; exact hall x (by simp [hx])
        cases hb : getDrugBatch (createSaleItem db saleId p0).1 p0.drugBatchId with
        | some batch =>
          simp only [processSaleItems, hp0, hb]
          exact ih _ _ r p hmemRest hp hrest
        | none =>
          simp only [processSaleItems, hp0, hb]
          exact ih _ _ r p hmemRest hp hrest

/-- The loop never inserts batch rows: an id absent from `drug_batches`
stays absent. -/
theorem processSaleItems_getDrugBatch_none (saleId id : Int) (raws : List SaleItemRaw) :
    ∀ (db : DB) (acc : List SaleItem), getDrugBatch db id = none →
      getDrugBatch (processSaleItems saleId db raws acc).1 id = none := by
  induction raws with
  | nil => intro db acc h; exact h
  | cons r rest ih =>
    intro db acc h
    cases hp : parseSaleItem r with
    | none =>
      simp only [processSaleItems, hp]
      exact h
    | some p =>
      cases hb : getDrugBatch (createSaleItem db saleId p).1 p.drugBatchId with
      | some batch =>
        have hne : id ≠ p.drugBatchId := by
          intro hcontra
          have hnone2 : getDrugBatch (createSaleItem db saleId p).1 id = none := h
          rw [hcontra] at hnone2
          rw [hnone2] at hb
          exact Option.noConfusion hb
        simp only [processSaleItems, hp, hb]
        refine ih _ _ ?_
        rw [getDrugBatch_update_ne _ _ _ _ hne]
        exact h
      | none =>
        simp only [processSaleItems, hp, hb]
        exact ih _ _ h


/-- The sale header the handler validates always carries status `completed`
and a zero discount. -/
theorem parseSaleHeader_fields (uid year ms : Int) (body : SaleRequestBody) (s : InsertSale)
    (h : parseSaleHeader uid year ms body = some s) :
    s.status = "completed" ∧ s.discountAmount = 0 := by
  unfold parseSaleHeader at h
  cases h1 : parseNumField body.subtotal with
  | none => rw [h1] at h; simp at h
  | some v1 =>
  rw [h1] at h
  cases h2 : parseNumField body.taxAmount with
  | none => rw [h2] at h; simp at h
  | some v2 =>
  rw [h2] at h
  cases h3 : parseNumField body.totalAmount with
  | none => rw [h3] at h; simp at h
  | some v3 =>
  rw [h3] at h
  cases h4 : parseStrField body.paymentMethod with
  | none => rw [h4] at h; simp at h
  | some v4 =>
  rw [h4] at h
  cases h5 : parseOptStrField body.customerName with
  | none => rw [h5] at h; simp at h
  | some v5 =>
  rw [h5] at h
  cases h6 : parseOptStrField body.customerPhone with
  | none => rw [h6] at h; simp at h
  | some v6 =>
  rw [h6] at h
  obtain rfl := Option.some.inj h
  exact ⟨rfl, rfl⟩

/-- Wrapper: under a fully parsed cart, a batch referenced by exactly one
line ends the whole commit with its quantity decremented by that line. -/
theorem commitSale_qty_once (uid year ms : Int) (db : DB) (body : SaleRequestBody)
    (rawItems : List SaleItemRaw) (p : ParsedSaleLine) (q0 : Int)
    (hhdr : (parseSaleHeader uid year ms body).isSome = true)
    (hitems : body.items = some rawItems)
    (hall : ∀ r ∈ rawItems, (parseSaleItem r).isSome = true)
    (hmem : p ∈ rawItems.filterMap parseSaleItem)
    (honce : ((rawItems.filterMap parseSaleItem).countP
        fun x => x.drugBatchId == p.drugBatchId) = 1)
    (hq : lookupBatchQty db p.drugBatchId = some q0) :
    lookupBatchQty (commitSale uid year ms db body).1 p.drugBatchId =
      some (q0 - p.quantity) := by
  cases hh : parseSaleHeader uid year ms body with
  | none => rw [hh] at hhdr; simp at hhdr
  | some saleData =>
    simp only [commitSale, hh, hitems]
    exact processSaleItems_qty_once _ p.drugBatchId rawItems _ [] q0 p hall hmem rfl honce hq

/-- On the success path the response echoes `respAmountReceived` and
`respChange`. -/
theorem commitSale_resp (uid year ms : Int) (db : DB) (body : SaleRequestBody)
    (h : ((commitSale uid year ms db body).2).isCreated = true) :
    ((commitSale uid year ms db body).2).amountReceivedOut = respAmountReceived body ∧
    ((commitSale uid year ms db body).2).changeOut = respChange body := by
  cases hh : parseSaleHeader uid year ms body with
  | none => simp [commitSale, hh, SaleResult.isCreated] at h
  | some sd =>
    cases hi : body.items with
    | none => simp [commitSale, hh, hi, SaleResult.isCreated] at h
    | some rawItems =>
      simp only [commitSale, hh, hi] at h ⊢
      cases hps : (processSaleItems (createSale db sd).2.id (createSale db sd).1 rawItems []).2 with
      | none =>
        rw [hps] at h
        simp [SaleResult.isCreated] at h
      | some items => exact ⟨rfl, rfl⟩

/-- The purchase-item loop touches only purchase tables, never `drug_batches`. -/
theorem processPurchaseItems_batches (purchaseId : Int) (raws : List PurchaseItemRaw) :
    ∀ db : DB, (processPurchaseItems purchaseId db raws).1.batches = db.batches := by
  induction raws with
  | nil => intro db; rfl
  | cons r rest ih =>
    intro db
    cases hp : parsePurchaseItem purchaseId r with
    | none => simp [processPurchaseItems, hp]
    | some pItem =>
      simp only [processPurchaseItems, hp]
      rw [ih]
      rfl

/-- The whole purchase commit leaves the `drug_batches` table unchanged. -/
theorem commitPurchase_batches (uid year ms : Int) (db : DB) (body : PurchaseRequestBody) :
    (commitPurchase uid year ms db body).1.batches = db.batches := by
  cases hh : parsePurchaseHeader uid year ms body with
  | none => simp [commitPurchase, hh]
  | some pd =>
    cases hi : body.items with
    | none =>
      simp only [commitPurchase, hh, hi]
      rfl
    | some rawItems =>
      simp only [commitPurchase, hh, hi]
      rw [processPurchaseItems_batches]
      rfl

/-- Four successive single-row appends are one append. -/
theorem append_four_exists {α : Type} (l : List α) (a b c d : α) :
    ∃ t, (((l ++ [a]) ++ [b]) ++ [c]) ++ [d] = l ++ t :=
  ⟨[a, b, c, d], by simp⟩

/-- Seeding test data only appends batch rows. -/
theorem applySeedTestData_batches (db : DB) :
    ∃ l, (applySeedTestData db).batches = db.batches ++ l :=
  append_four_exists _ _ _ _ _



/-- `List.any` respects pointwise-equal predicates. -/
theorem any_congr {α : Type} {p q : α → Bool} :
    ∀ l : List α, (∀ a ∈ l, p a = q a) → l.any p = l.any q := by
  intro l h
  induction l with
  | nil => rfl
  | cons a l ih =>
    simp only [List.any_cons]
    rw [h a (by simp), ih fun x hx => h x (by simp [hx])]

/-- The empty pattern matches some tail of every string (the empty tail). -/
theorem tails_any_nil_match :
    ∀ t : List Char, (t.tails.any fun u => likeMatch [] u) = true := by
  intro t
  induction t with
  | nil => decide
  | cons c t ih => simp [likeMatch, List.any_cons, ih]

/-- The pattern consisting of a single `%` matches every string. -/
theorem likeMatch_pct_nil (t : List Char) : likeMatch ['%'] t = true := by
  simp [likeMatch, tails_any_nil_match]

/-- For a query free of the LIKE metacharacters, matching `query ++ "%"` is
exactly "starts with query". -/
theorem likeMatch_lit_append_pct (q : List Char)
    (hq : ∀ c ∈ q, ¬(c = '%' ∨ c = '_' ∨ c = '\\')) :
    ∀ t : List Char, likeMatch (q ++ ['%']) t = charsStartWith q t := by
  induction q with
  | nil =>
    intro t
    rw [List.nil_append, likeMatch_pct_nil]
    rfl
  | cons a q ih =>
    intro t
    have ha := hq a (by simp)
    push_neg at ha
    obtain ⟨ha1, ha2, ha3⟩ := ha
    have hq2 : ∀ c ∈ q, ¬(c = '%' ∨ c = '_' ∨ c = '\\') := fun c hc => hq c (by simp [hc])
    cases t with
    | nil =>
      have hred : likeMatch ((a :: q) ++ ['%']) ([] : List Char) = false := by
        rw [List.cons_append, likeMatch.eq_def]
        simp only []
        rw [if_neg ha1, if_neg ha2, if_neg ha3]
      rw [hred]
      rfl
    | cons c t =>
      have hred : likeMatch ((a :: q) ++ ['%']) (c :: t)
          = (a == c && likeMatch (q ++ ['%']) t) := by
        rw [List.cons_append, likeMatch.eq_def]
        simp only []
        rw [if_neg ha1, if_neg ha2, if_neg ha3]
      rw [hred, ih hq2 t]
      rfl

/-- Substring containment is a search for a matching tail. -/
theorem charsContain_eq_tails_any (pat : List Char) :
    ∀ s : List Char, charsContain pat s = s.tails.any fun t => charsStartWith pat t := by
  intro s
  induction s with
  | nil => simp [charsContain]
  | cons b s ih => simp [charsContain, List.any_cons, ih]

/-- On queries free of the LIKE metacharacters `%`, `_` and backslash, the
search predicate is exactly case-sensitive substring containment. -/
theorem sqlLikeContains_clean_eq_substring (field query : String)
    (hq : ∀ c ∈ query.toList, ¬(c = '%' ∨ c = '_' ∨ c = '\\')) :
    sqlLikeContains field query = charsContain query.toList field.toList := by
  unfold sqlLikeContains
  have h1 : likeMatch ('%' :: (query.toList ++ ['%'])) field.toList
      = field.toList.tails.any fun t => likeMatch (query.toList ++ ['%']) t := by
    rw [likeMatch.eq_def]
    simp
  rw [h1, any_congr _ fun t _ => likeMatch_lit_append_pct query.toList hq t,
    ← charsContain_eq_tails_any]

/-! ## Concrete fixtures for witnesses and counterexamples -/

/-- Fixture drug row (catalogue entry). -/
def amoxDrug : Drug :=
  { id := 1, name := "Amoxicillin", genericName := some "Amoxicillin", brand := none,
    categoryId := some 1, dosage := some "500mg", form := some "Capsules",
    description := none, barcode := none, requiresPrescription := false, isActive := true }

/-- Fixture batch row: 100 units on hand. -/
def batchOne : DrugBatch :=
  { id := 1, drugId := 1, batchNumber := "AMX001", expiryDate := 1767139200000,
    quantity := 100, costPrice := 8, sellingPrice := 12, supplierId := some 1 }

/-- Fixture store: one drug with one batch of 100 units, no sales yet. -/
def dbEx : DB :=
  { emptyDB with drugs := [amoxDrug], batches := [batchOne], nextDrugId := 2, nextBatchId := 2 }

/-- Fixture store whose single batch holds only 5 units. -/
def dbLow : DB :=
  { dbEx with batches := [{ batchOne with quantity := 5 }] }

/-- A well-formed cart line: 10 units of batch 1. -/
def lineEx : SaleItemRaw :=
  { drugBatchId := some (JVal.jnum 1), quantity := some (JVal.jnum 10),
    unitPrice := some (JVal.jnum 12), totalPrice := some (JVal.jnum 120) }

/-- A well-formed sale-commit body over `lineEx` (the spec's receipt
scenario: total 120, received 150). -/
def bodyEx : SaleRequestBody :=
  { items := some [lineEx], subtotal := some (JVal.jnum 120),
    taxAmount := some (JVal.jnum 0), totalAmount := some (JVal.jnum 120),
    paymentMethod := some (JVal.jstr "cash"), amountReceived := some (JVal.jnum 150),
    customerName := none, customerPhone := none, discountAmount := none }

/-- A line requesting 8 units (more than `dbLow` holds). -/
def lineOversell : SaleItemRaw := { lineEx with quantity := some (JVal.jnum 8) }

/-- A body whose only line oversells the low-stock batch. -/
def bodyOversell : SaleRequestBody := { bodyEx with items := some [lineOversell] }

/-- A malformed cart line: `quantity` is a string. -/
def badLine : SaleItemRaw := { lineEx with quantity := some (JVal.jstr "x") }

/-- A body whose second cart line is malformed. -/
def bodyBadLine : SaleRequestBody := { bodyEx with items := some [lineEx, badLine] }

/-- A body whose header is malformed: `totalAmount` is a string. -/
def bodyBadHeader : SaleRequestBody := { bodyEx with totalAmount := some (JVal.jstr "x") }

/-- A body with `amountReceived` present but zero (falsy in JavaScript). -/
def bodyZeroReceived : SaleRequestBody := { bodyEx with amountReceived := some (JVal.jnum 0) }

/-- A body underpaying 50 against a total of 120. -/
def bodyUnderpaid : SaleRequestBody := { bodyEx with amountReceived := some (JVal.jnum 50) }

/-- A body supplying a discount of 5 (which the handler never reads). -/
def bodyDisc : SaleRequestBody := { bodyEx with discountAmount := some (JVal.jnum 5) }

/-- A body with an empty cart. -/
def bodyEmptyCart : SaleRequestBody := { bodyEx with items := some [] }

/-- A line referencing batch id 99, which does not exist in `dbEx`. -/
def lineMissing : SaleItemRaw :=
  { lineEx with drugBatchId := some (JVal.jnum 99), quantity := some (JVal.jnum 3) }

/-- A body whose only line references the nonexistent batch 99. -/
def bodyMissingBatch : SaleRequestBody := { bodyEx with items := some [lineMissing] }

/-- The raw purchase header of `purchaseBodyEx`. -/
def purchaseRawEx : PurchaseRaw :=
  { supplierId := some (JVal.jnum 1), totalAmount := some (JVal.jnum 400), status := none }

/-- The raw purchase line of `purchaseBodyEx`: 50 units of drug 1. -/
def purchaseLineEx : PurchaseItemRaw :=
  { drugId := some (JVal.jnum 1), quantity := some (JVal.jnum 50),
    unitCost := some (JVal.jnum 8), totalCost := some (JVal.jnum 400),
    batchNumber := some (JVal.jstr "AMX002"), expiryDate := some (JVal.jnum 1798675200000) }

/-- A well-formed purchase body built from the two fixtures above. -/
def purchaseBodyEx : PurchaseRequestBody :=
  { purchase := some purchaseRawEx, items := some [purchaseLineEx] }

/-! ## The claims -/

/-- C1: for every valid cart committed through the sale-commit endpoint, each
DrugBatch referenced by exactly one cart line ends the commit with quantity
equal to its pre-commit quantity minus that line's quantity. -/
theorem C1_sale_decrements_each_once_referenced_batch
    (uid year ms : Int) (db : DB) (body : SaleRequestBody)
    (rawItems : List SaleItemRaw) (p : ParsedSaleLine) (q0 : Int)
    (hhdr : (parseSaleHeader uid year ms body).isSome = true)
    (hitems : body.items = some rawItems)
    (hall : ∀ r ∈ rawItems, (parseSaleItem r).isSome = true)
    (hmem : p ∈ rawItems.filterMap parseSaleItem)
    (honce : ((rawItems.filterMap parseSaleItem).countP
        fun x => x.drugBatchId == p.drugBatchId) = 1)
    (hq : lookupBatchQty db p.drugBatchId = some q0) :
    lookupBatchQty (commitSale uid year ms db body).1 p.drugBatchId = some (q0 - p.quantity) :=
  commitSale_qty_once uid year ms db body rawItems p q0 hhdr hitems hall hmem honce hq

/-- Witness for C1 at the spec's scenario: batch at 100, one cart line of 10,
final quantity 90. -/
theorem C1_witness :
    lookupBatchQty (commitSale 1 2025 7 dbEx bodyEx).1 1 = some 90 := by
  have h := C1_sale_decrements_each_once_referenced_batch 1 2025 7 dbEx bodyEx [lineEx]
    { drugBatchId := 1, quantity := 10, unitPrice := 12, totalPrice := 120 } 100
    (by decide) rfl (by decide) (by decide) (by decide) (by decide)
  simpa using h

/-- C2 counterexample: committing a cart line of 8 units against a batch
holding 5 writes back −3 — the quantity written back is negative, refuting
the claimed non-negativity. -/
theorem C2_counterexample :
    lookupBatchQty (commitSale 1 2025 7 dbLow bodyOversell).1 1 = some (-3)
    ∧ ¬ (0 : Int) ≤ -3 := by decide

/-- C2 amended: the sale commit writes back the raw difference with no floor
clamp, so a line quantity exceeding the stock leaves the stored quantity
negative. -/
theorem C2_amended_oversell_goes_negative
    (uid year ms : Int) (db : DB) (body : SaleRequestBody)
    (rawItems : List SaleItemRaw) (p : ParsedSaleLine) (q0 : Int)
    (hhdr : (parseSaleHeader uid year ms body).isSome = true)
    (hitems : body.items = some rawItems)
    (hall : ∀ r ∈ rawItems, (parseSaleItem r).isSome = true)
    (hmem : p ∈ rawItems.filterMap parseSaleItem)
    (honce : ((rawItems.filterMap parseSaleItem).countP
        fun x => x.drugBatchId == p.drugBatchId) = 1)
    (hq : lookupBatchQty db p.drugBatchId = some q0)
    (hover : q0 < p.quantity) :
    ∃ q1, lookupBatchQty (commitSale uid year ms db body).1 p.drugBatchId = some q1
      ∧ q1 < 0 := by
  refine ⟨q0 - p.quantity,
    commitSale_qty_once uid year ms db body rawItems p q0 hhdr hitems hall hmem honce hq, ?_⟩
  omega

/-- Witness for C2 amended: batch at 5, line of 8, final quantity negative. -/
theorem C2_amended_witness :
    ∃ q1, lookupBatchQty (commitSale 1 2025 11 dbLow bodyOversell).1 1 = some q1 ∧ q1 < 0 :=
  C2_amended_oversell_goes_negative 1 2025 11 dbLow bodyOversell [lineOversell]
    { drugBatchId := 1, quantity := 8, unitPrice := 12, totalPrice := 120 } 5
    (by decide) rfl (by decide) (by decide) (by decide) (by decide) (by decide)

/-- C3 counterexample: a request whose second cart line is malformed is
answered with the error response, yet the Sale header, the first line's
SaleItem and the first line's batch decrement are all persisted — refuting
the claim that no write is performed. -/
theorem C3_counterexample :
    (commitSale 1 2025 7 dbEx bodyBadLine).2 = SaleResult.error 500 "Internal server error"
    ∧ (commitSale 1 2025 7 dbEx bodyBadLine).1.sales.length = 1
    ∧ dbEx.sales.length = 0
    ∧ (commitSale 1 2025 7 dbEx bodyBadLine).1.saleItems.length = 1
    ∧ lookupBatchQty (commitSale 1 2025 7 dbEx bodyBadLine).1 1 = some 90 := by decide

/-- C3 amended: a malformed Sale-header field is rejected before any write;
but a malformed cart-line field is only detected inside the item loop, so the
failure response leaves the Sale header and the earlier lines' writes in
place. -/
theorem C3_amended_validation_boundary :
    (∀ (uid year ms : Int) (db : DB) (body : SaleRequestBody),
      parseSaleHeader uid year ms body = none →
      commitSale uid year ms db body = (db, SaleResult.error 500 "Internal server error"))
    ∧ (∀ (uid year ms : Int) (db : DB) (body : SaleRequestBody)
        (pre : List SaleItemRaw) (bad : SaleItemRaw) (rest : List SaleItemRaw),
      (parseSaleHeader uid year ms body).isSome = true →
      body.items = some (pre ++ bad :: rest) →
      (∀ r ∈ pre, (parseSaleItem r).isSome = true) →
      parseSaleItem bad = none →
      (commitSale uid year ms db body).2 = SaleResult.error 500 "Internal server error"
      ∧ (commitSale uid year ms db body).1.sales.length = db.sales.length + 1
      ∧ (commitSale uid year ms db body).1.saleItems.length =
          db.saleItems.length + pre.length) := by
  constructor
  · intro uid year ms db body hh
    simp [commitSale, hh]
  · intro uid year ms db body pre bad rest hhdr hitems hpre hbad
    cases hh : parseSaleHeader uid year ms body with
    | none => rw [hh] at hhdr; simp at hhdr
    | some sd =>
      simp only [commitSale, hh, hitems]
      obtain ⟨h1, h2, h3⟩ :=
        processSaleItems_stops (createSale db sd).2.id bad rest hbad pre (createSale db sd).1 [] hpre
      refine ⟨?_, ?_, ?_⟩
      · rw [h1]
      · rw [h2]
        show ((createSale db sd).1.sales).length = _
        simp [createSale]
      · rw [h3]
        rfl

/-- Witness for C3 amended at concrete inputs: a malformed header performs no
write at all; a malformed second line leaves one Sale and one SaleItem. -/
theorem C3_amended_witness :
    (commitSale 1 2025 7 dbEx bodyBadHeader = (dbEx, SaleResult.error 500 "Internal server error"))
    ∧ ((commitSale 1 2025 7 dbEx bodyBadLine).2 = SaleResult.error 500 "Internal server error"
       ∧ (commitSale 1 2025 7 dbEx bodyBadLine).1.sales.length = dbEx.sales.length + 1
       ∧ (commitSale 1 2025 7 dbEx bodyBadLine).1.saleItems.length = dbEx.saleItems.length + 1) := by
  constructor
  · exact C3_amended_validation_boundary.1 1 2025 7 dbEx bodyBadHeader (by decide)
  · have h := C3_amended_validation_boundary.2 1 2025 7 dbEx bodyBadLine [lineEx] badLine []
      (by decide) rfl (by decide) (by decide)
    simpa using h

/-- C4: a cart line whose drugBatchId references no existing DrugBatch is
silently skipped for inventory purposes: the commit still succeeds, a
SaleItem for the line is still created, and no batch row appears or changes
under that id. -/
theorem C4_missing_batch_skipped
    (uid year ms : Int) (db : DB) (body : SaleRequestBody)
    (rawItems : List SaleItemRaw) (r : SaleItemRaw) (p : ParsedSaleLine)
    (hhdr : (parseSaleHeader uid year ms body).isSome = true)
    (hitems : body.items = some rawItems)
    (hall : ∀ x ∈ rawItems, (parseSaleItem x).isSome = true)
    (hr : r ∈ rawItems) (hp : parseSaleItem r = some p)
    (hmiss : getDrugBatch db p.drugBatchId = none) :
    ((commitSale uid year ms db body).2).isCreated = true
    ∧ (commitSale uid year ms db body).1.saleItems.length =
        db.saleItems.length + rawItems.length
    ∧ (∃ si ∈ (commitSale uid year ms db body).1.saleItems,
        si.drugBatchId = p.drugBatchId ∧ si.quantity = p.quantity)
    ∧ getDrugBatch (commitSale uid year ms db body).1 p.drugBatchId = none := by
  cases hh : parseSaleHeader uid year ms body with
  | none => rw [hh] at hhdr; simp at hhdr
  | some sd =>
    simp only [commitSale, hh, hitems]
    refine ⟨?_, ?_, ?_, ?_⟩
    · have hsome := (processSaleItems_some_iff (createSale db sd).2.id rawItems
        (createSale db sd).1 []).mpr hall
      cases hps : (processSaleItems (createSale db sd).2.id (createSale db sd).1 rawItems []).2 with
      | none => rw [hps] at hsome; simp at hsome
      | some items => rfl
    · rw [processSaleItems_length (createSale db sd).2.id rawItems (createSale db sd).1 [] hall]
      rfl
    · obtain ⟨si, hsi, _, hdrug, hqty⟩ :=
        processSaleItems_member (createSale db sd).2.id rawItems (createSale db sd).1 [] r p
          hr hp hall
      exact ⟨si, hsi, hdrug, hqty⟩
    · exact processSaleItems_getDrugBatch_none (createSale db sd).2.id p.drugBatchId rawItems
        (createSale db sd).1 [] hmiss

/-- Witness for C4: the line referencing nonexistent batch 99 commits
successfully with its SaleItem created. -/
theorem C4_witness :
    ((commitSale 1 2025 7 dbEx bodyMissingBatch).2).isCreated = true
    ∧ (commitSale 1 2025 7 dbEx bodyMissingBatch).1.saleItems.length =
        dbEx.saleItems.length + 1
    ∧ (∃ si ∈ (commitSale 1 2025 7 dbEx bodyMissingBatch).1.saleItems,
        si.drugBatchId = 99 ∧ si.quantity = 3)
    ∧ getDrugBatch (commitSale 1 2025 7 dbEx bodyMissingBatch).1 99 = none := by
  have h := C4_missing_batch_skipped 1 2025 7 dbEx bodyMissingBatch [lineMissing] lineMissing
    { drugBatchId := 99, quantity := 3, unitPrice := 12, totalPrice := 120 }
    (by decide) rfl (by decide) (by decide) (by decide) (by decide)
  simpa using h


/-- C5 counterexample: `amountReceived = 0` is present in the request, but the
response reports change 0 (and echoes `totalAmount`) instead of
`0 − totalAmount = −120` — JavaScript truthiness treats the present zero as
absent, refuting the claim for present values. -/
theorem C5_counterexample :
    bodyZeroReceived.amountReceived = some (JVal.jnum 0)
    ∧ ((commitSale 1 2025 7 dbEx bodyZeroReceived).2).isCreated = true
    ∧ ((commitSale 1 2025 7 dbEx bodyZeroReceived).2).amountReceivedOut = some (JVal.jnum 120)
    ∧ ((commitSale 1 2025 7 dbEx bodyZeroReceived).2).changeOut = some (JVal.jnum 0)
    ∧ some (JVal.jnum 0) ≠ some (JVal.jnum ((0 : ℚ) - 120)) := by
  refine ⟨rfl, by decide, by decide, by decide, ?_⟩
  intro hcontra
  have h2 := Option.some.inj hcontra
  injection h2 with h3
  norm_num at h3

/-- C5 amended: an absent or zero (falsy) `amountReceived` defaults to
`totalAmount` with change 0; a present nonzero `amountReceived` yields
`change = amountReceived − totalAmount`, and underpayment (negative change)
is not rejected — the response is still the created one. -/
theorem C5_amended_change_computation
    (uid year ms : Int) (db : DB) (body : SaleRequestBody) (t : ℚ)
    (hsucc : ((commitSale uid year ms db body).2).isCreated = true)
    (ht : body.totalAmount = some (JVal.jnum t)) :
    ((body.amountReceived = none ∨ body.amountReceived = some (JVal.jnum 0)) →
      ((commitSale uid year ms db body).2).amountReceivedOut = some (JVal.jnum t)
      ∧ ((commitSale uid year ms db body).2).changeOut = some (JVal.jnum 0))
    ∧ (∀ a : ℚ, a ≠ 0 → body.amountReceived = some (JVal.jnum a) →
      ((commitSale uid year ms db body).2).amountReceivedOut = some (JVal.jnum a)
      ∧ ((commitSale uid year ms db body).2).changeOut = some (JVal.jnum (a - t))) := by
  obtain ⟨har, hch⟩ := commitSale_resp uid year ms db body hsucc
  constructor
  · intro hcase
    rw [har, hch]
    rcases hcase with h0 | h0
    · simp [respAmountReceived, respChange, jsTruthy, h0, ht]
    · simp [respAmountReceived, respChange, jsTruthy, h0, ht]
  · intro a ha h0
    rw [har, hch]
    constructor
    · simp [respAmountReceived, jsTruthy, h0, ha]
    · simp [respChange, jsTruthy, jsSub, h0, ht, ha]

/-- Witness for C5 amended: underpaying 50 against 120 still succeeds and the
change is 50 − 120 (negative). -/
theorem C5_amended_witness :
    ((commitSale 1 2025 7 dbEx bodyUnderpaid).2).amountReceivedOut = some (JVal.jnum 50)
    ∧ ((commitSale 1 2025 7 dbEx bodyUnderpaid).2).changeOut =
        some (JVal.jnum ((50 : ℚ) - 120)) :=
  (C5_amended_change_computation 1 2025 7 dbEx bodyUnderpaid 120 (by decide) rfl).2
    50 (by norm_num) rfl

/-- C6 counterexample: a request supplying `discountAmount = 5` is persisted
with discount 0 — the handler hardcodes the discount, refuting "equals the
supplied discount otherwise". -/
theorem C6_counterexample :
    bodyDisc.discountAmount = some (JVal.jnum 5)
    ∧ (commitSale 1 2025 7 dbEx bodyDisc).1.sales.map (fun s => s.discountAmount) = [0]
    ∧ (0 : ℚ) ≠ 5 := by
  refine ⟨rfl, by decide, by norm_num⟩

/-- C6 amended: every Sale header the commit persists has status `completed`
and discountAmount 0, regardless of any discount supplied in the request. -/
theorem C6_amended_status_and_discount (uid year ms : Int) (db : DB) (body : SaleRequestBody) :
    ∃ l, (commitSale uid year ms db body).1.sales = db.sales ++ l
      ∧ ∀ s ∈ l, s.status = "completed" ∧ s.discountAmount = 0 := by
  cases hh : parseSaleHeader uid year ms body with
  | none =>
    refine ⟨[], ?_, by simp⟩
    simp [commitSale, hh]
  | some sd =>
    obtain ⟨hst, hdc⟩ := parseSaleHeader_fields uid year ms body sd hh
    cases hi : body.items with
    | none =>
      refine ⟨[(createSale db sd).2], ?_, ?_⟩
      · simp only [commitSale, hh, hi]
        rfl
      · intro s hs
        simp at hs
        subst hs
        exact ⟨hst, hdc⟩
    | some rawItems =>
      refine ⟨[(createSale db sd).2], ?_, ?_⟩
      · simp only [commitSale, hh, hi]
        rw [processSaleItems_sales]
        rfl
      · intro s hs
        simp at hs
        subst hs
        exact ⟨hst, hdc⟩

/-- C7 counterexample: a successful purchase receipt does not increment the
received batch quantities — the batch table is byte-for-byte unchanged, so the
batch stays at 100 instead of 100 + 50. -/
theorem C7_counterexample :
    ((commitPurchase 1 2025 9 dbEx purchaseBodyEx).2).isCreated = true
    ∧ (commitPurchase 1 2025 9 dbEx purchaseBodyEx).1.batches = dbEx.batches
    ∧ lookupBatchQty (commitPurchase 1 2025 9 dbEx purchaseBodyEx).1 1 = some 100
    ∧ (100 : Int) ≠ 100 + 50 := by decide

/-- C7 amended: across all exposed operations, only the sale commit changes
an existing batch's quantity; the purchase endpoint (and every other route)
leaves every existing batch's quantity exactly as it was. -/
theorem C7_amended_only_sales_mutate_quantity (op : Op) (db : DB) (id : Int) (q : Int)
    (hop : op.isSaleCreate = false)
    (hq : lookupBatchQty db id = some q) :
    lookupBatchQty (applyOp op db) id = some q := by
  cases op with
  | readOnly => exact hq
  | register u =>
    cases u with
    | none => exact hq
    | some u => exact hq
  | changePassword uid hashed => exact hq
  | categoryCreate c =>
    cases c with
    | none => exact hq
    | some c => exact hq
  | categoryUpdate cid p =>
    cases p with
    | none => exact hq
    | some p => exact hq
  | categoryDelete cid => exact hq
  | supplierCreate sup =>
    cases sup with
    | none => exact hq
    | some sup => exact hq
  | customerCreate c =>
    cases c with
    | none => exact hq
    | some c => exact hq
  | drugCreate d =>
    cases d with
    | none => exact hq
    | some d => exact hq
  | drugUpdate did p =>
    cases p with
    | none => exact hq
    | some p => exact hq
  | drugDelete did => exact hq
  | drugBatchCreate b =>
    cases b with
    | none => exact hq
    | some b => exact lookupBatchQty_append _ rfl hq
  | saleCreate uid year ms body => simp [Op.isSaleCreate] at hop
  | purchaseCreate uid year ms body =>
    show lookupBatchQty (commitPurchase uid year ms db body).1 id = some q
    rw [lookupBatchQty_congr id (commitPurchase_batches uid year ms db body)]
    exact hq
  | settingPut key value =>
    show lookupBatchQty (setSetting db key value) id = some q
    unfold setSetting
    split
    · exact hq
    · exact hq
  | seedTestData =>
    obtain ⟨l, hl⟩ := applySeedTestData_batches db
    exact lookupBatchQty_append l hl hq

/-- Witness for C7 amended: the concrete purchase commit leaves batch 1 at
quantity 100. -/
theorem C7_amended_witness :
    (Op.purchaseCreate 1 2025 9 purchaseBodyEx).isSaleCreate = false
    ∧ lookupBatchQty (applyOp (Op.purchaseCreate 1 2025 9 purchaseBodyEx) dbEx) 1 = some 100 :=
  ⟨by decide,
   C7_amended_only_sales_mutate_quantity (Op.purchaseCreate 1 2025 9 purchaseBodyEx) dbEx 1 100
     (by decide) (by decide)⟩

/-- C8 counterexample: the implementation's search is case-sensitive: query
`amox` misses the stored name `Amoxicillin`, though the spec-modelled
case-insensitive search returns the drug. -/
theorem C8_counterexample :
    searchDrugs dbEx "amox" = [] ∧ searchDrugsSpec dbEx "amox" = [amoxDrug] := by decide

/-- C8 amended: the search returns exactly the drugs whose name, genericName,
brand or barcode matches the pattern built from the query under case-sensitive
PostgreSQL `LIKE` semantics — the wildcards `%` and `_` and the backslash
escape occurring in the query are interpreted, and NULL columns never match;
for a query free of the LIKE metacharacters this predicate is exactly a
case-sensitive substring match. -/
theorem C8_amended_search_characterization :
    (∀ (db : DB) (query : String) (d : Drug),
      d ∈ searchDrugs db query ↔
        d ∈ db.drugs ∧
          (sqlLikeContains d.name query = true ∨
           sqlLikeContainsOpt d.genericName query = true ∨
           sqlLikeContainsOpt d.brand query = true ∨
           sqlLikeContainsOpt d.barcode query = true))
    ∧ (∀ (field query : String),
        (∀ c ∈ query.toList, ¬(c = '%' ∨ c = '_' ∨ c = '\\')) →
        sqlLikeContains field query = charsContain query.toList field.toList) := by
  constructor
  · intro db query d
    unfold searchDrugs
    rw [List.mem_filter]
    simp [Bool.or_eq_true, or_assoc]
  · exact sqlLikeContains_clean_eq_substring

/-- Witness for C8 amended: on the metacharacter-free query `moxi` the LIKE
predicate coincides with substring containment and finds the drug; the
wildcard query `A_ox` LIKE-matches `Amoxicillin` without being a substring
of it. -/
theorem C8_amended_witness :
    (sqlLikeContains "Amoxicillin" "moxi"
      = charsContain "moxi".toList "Amoxicillin".toList)
    ∧ sqlLikeContains "Amoxicillin" "moxi" = true
    ∧ searchDrugs dbEx "moxi" = [amoxDrug]
    ∧ searchDrugs dbEx "A_ox" = [amoxDrug]
    ∧ charsContain "A_ox".toList "Amoxicillin".toList = false :=
  ⟨C8_amended_search_characterization.2 "Amoxicillin" "moxi" (by decide),
   by decide, by decide, by decide, by decide⟩

/-- C9 counterexample: an empty cart commits successfully and records a Sale
— non-emptiness (and with it the other cart constraints) is not enforced. -/
theorem C9_counterexample :
    bodyEmptyCart.items = some ([] : List SaleItemRaw)
    ∧ ((commitSale 1 2025 7 dbEx bodyEmptyCart).2).isCreated = true
    ∧ (commitSale 1 2025 7 dbEx bodyEmptyCart).1.sales.length = 1 := by decide

/-- C9 amended: the sale commit succeeds exactly when the header fields parse
and `items` is an array whose every line parses — a non-empty cart, existing
batch references and positive quantities are not required. -/
theorem C9_amended_success_characterization
    (uid year ms : Int) (db : DB) (body : SaleRequestBody) :
    ((commitSale uid year ms db body).2).isCreated = true ↔
      ((parseSaleHeader uid year ms body).isSome = true ∧
       ∃ rawItems, body.items = some rawItems ∧
         ∀ r ∈ rawItems, (parseSaleItem r).isSome = true) := by
  cases hh : parseSaleHeader uid year ms body with
  | none => simp [commitSale, hh, SaleResult.isCreated]
  | some sd =>
    cases hi : body.items with
    | none => simp [commitSale, hh, hi, SaleResult.isCreated]
    | some rawItems =>
      simp only [commitSale, hh, hi]
      cases hps : (processSaleItems (createSale db sd).2.id (createSale db sd).1 rawItems []).2 with
      | none =>
        refine ⟨fun h => ?_, fun h => ?_⟩
        · simp [SaleResult.isCreated] at h
        · obtain ⟨_, raws, hraws, hall⟩ := h
          obtain rfl := Option.some.inj hraws
          have h2 := (processSaleItems_some_iff (createSale db sd).2.id rawItems
            (createSale db sd).1 []).mpr hall
          rw [hps] at h2
          simp at h2
      | some items =>
        refine ⟨fun _ => ⟨by simp, rawItems, rfl, ?_⟩, fun _ => rfl⟩
        refine (processSaleItems_some_iff (createSale db sd).2.id rawItems
          (createSale db sd).1 []).mp ?_
        rw [hps]
        rfl

/-- C10: every failing sale-commit request — schema validation failure or any
other thrown error — is answered uniformly with status 500 and message
`Internal server error`, indistinguishable from an internal failure. -/
theorem C10_uniform_error_response (uid year ms : Int) (db : DB) (body : SaleRequestBody)
    (h : ((commitSale uid year ms db body).2).isCreated = false) :
    (commitSale uid year ms db body).2 = SaleResult.error 500 "Internal server error" := by
  cases hh : parseSaleHeader uid year ms body with
  | none => simp [commitSale, hh]
  | some sd =>
    cases hi : body.items with
    | none => simp [commitSale, hh, hi]
    | some rawItems =>
      simp only [commitSale, hh, hi] at h ⊢
      cases hps : (processSaleItems (createSale db sd).2.id (createSale db sd).1 rawItems []).2 with
      | none => rfl
      | some items =>
        rw [hps] at h
        simp [SaleResult.isCreated] at h

/-- Witness for C10: the malformed-header request is a failure and receives
the uniform 500 response. -/
theorem C10_witness :
    ((commitSale 1 2025 9 dbEx bodyBadHeader).2).isCreated = false
    ∧ (commitSale 1 2025 9 dbEx bodyBadHeader).2 =
        SaleResult.error 500 "Internal server error" :=
  ⟨by decide, C10_uniform_error_response 1 2025 9 dbEx bodyBadHeader (by decide)⟩

end Dawa
